import Mathlib

/-!
Verification development for the feature-embedding module
(`fastfold/model/nn/embedders.py`): a shallow embedding of the
`InputEmbedder`, `TemplateAngleEmbedder`, `TemplatePairEmbedder` and
`TemplateEmbedder` forward computations, together with theorems settling
the behavioural claims about them.

Tensors are modelled exactly, as a shape list plus a total valuation on
index lists, with integer entries standing for the exact arithmetic the
code performs (no floating-point rounding is modelled).  Device and dtype
are carried as metadata so that the buffer-placement policy of
`TemplateEmbedder.forward` is expressible.  Collaborators that the module
imports from elsewhere in the repository (the template feature builders,
the pair stack, the pointwise attention, the `one_hot` helper) are not
under `src/`; they are modelled from the specification, each such
definition saying so in its doc comment.
-/

/-- Accelerator/host placement of a tensor (`device` in the source). -/
inductive Device where
  | cpu
  | cuda (idx : ℕ)
deriving DecidableEq, Repr

/-- Numeric dtype tag of a tensor (`dtype` in the source). -/
inductive Dtype where
  | f32
  | f16
  | bf16
deriving DecidableEq, Repr

/-- A tensor: a shape, placement metadata, and a total valuation on index
lists.  Only valuations at indices componentwise below the shape are
meaningful; all operations are defined so that theorems only inspect those. -/
structure Tensor where
  shape : List ℕ
  device : Device
  dtype : Dtype
  val : List ℕ → ℤ

/-- `torch.empty(shape, dtype=dt, device=dev)`.  The uninitialised contents are
modelled as zeros; no claim reads an entry that the code leaves unwritten. -/
def Tensor.empty (s : List ℕ) (dev : Device) (dt : Dtype) : Tensor :=
  { shape := s, device := dev, dtype := dt, val := fun _ => 0 }

/-- `.to(device=d)`: metadata-only move, values unchanged. -/
def Tensor.toDevice (x : Tensor) (d : Device) : Tensor :=
  { x with device := d }

/-- `.type(dt)` / `.to(dtype=dt)`: dtype cast; in this exact model the values
are unchanged. -/
def Tensor.toDtype (x : Tensor) (d : Dtype) : Tensor :=
  { x with dtype := d }

/-- Elementwise map (used for scalar shifts and the rectified-linear unit). -/
def Tensor.map (f : ℤ → ℤ) (x : Tensor) : Tensor :=
  { x with val := fun idx => f (x.val idx) }

/-- The shape/value payload of a tensor, without placement metadata. -/
def Tensor.data (x : Tensor) : List ℕ × (List ℕ → ℤ) :=
  (x.shape, x.val)

/-- Index remapping of torch broadcasting, aligned from the trailing axis:
an axis of extent 1 always reads position 0 (realised by `% 1`), missing
leading axes read position 0. -/
def bcIdx (shape idx : List ℕ) : List ℕ :=
  List.zipWith (fun s i => i % s)
    shape
    (List.replicate (shape.length - idx.length) 0 ++ idx.drop (idx.length - shape.length))

/-- Shape of the result of a broadcast binary operation. -/
def broadcastShape (a b : List ℕ) : List ℕ :=
  let n := max a.length b.length
  List.zipWith max (List.replicate (n - a.length) 1 ++ a) (List.replicate (n - b.length) 1 ++ b)

/-- Broadcast binary elementwise operation (`+`, `-` on tensors). -/
def Tensor.binop (f : ℤ → ℤ → ℤ) (x y : Tensor) : Tensor :=
  { shape := broadcastShape x.shape y.shape
    device := x.device
    dtype := x.dtype
    val := fun idx => f (x.val (bcIdx x.shape idx)) (y.val (bcIdx y.shape idx)) }

/-- `unsqueeze` counted from the trailing axis: `unsqueezeFromEnd x k` inserts
a new axis of extent 1 so that it ends up `k` axes before the end, i.e. it is
torch `unsqueeze(-(k+1))`; `x[..., None]` is `k = 0`, `x[..., None, :]` is
`k = 1`, `unsqueeze(-3)` is `k = 2`. -/
def Tensor.unsqueezeFromEnd (x : Tensor) (k : ℕ) : Tensor :=
  { x with
    shape := x.shape.take (x.shape.length - k) ++ 1 :: x.shape.drop (x.shape.length - k)
    val := fun idx => x.val (idx.take (idx.length - 1 - k) ++ idx.drop (idx.length - k)) }

/-- torch `expand` of the axis `k` places before the end (which must have
extent 1) to extent `n`; other axes keep their extent (the `-1` entries of the
source's expand argument). -/
def Tensor.expandAxisFromEnd (x : Tensor) (k n : ℕ) : Tensor :=
  { x with
    shape := x.shape.set (x.shape.length - 1 - k) n
    val := fun idx => x.val (idx.set (idx.length - 1 - k) 0) }

/-- Buffer store `t[i] = src` at position `i` of the leading axis, with the
source broadcast to the slice per torch `copy_` semantics. -/
def Tensor.store (acc : Tensor) (i : ℕ) (src : Tensor) : Tensor :=
  { acc with
    val := fun idx =>
      if idx.headD 0 = i then src.val (bcIdx src.shape (idx.drop 1)) else acc.val idx }

/-- Concatenation along axis `d` of tensors that all have extent 1 along axis
`d`; models `dict_multimap(partial(torch.cat, dim=templ_dim), ...)` applied to
the per-template angle embeddings, each of which keeps a singleton template
axis from the single-index `index_select`. -/
def Tensor.catUnit (d : ℕ) (ts : List Tensor) : Tensor :=
  let h := ts.headD (Tensor.empty [] Device.cpu Dtype.f32)
  { shape := h.shape.set d ts.length
    device := h.device
    dtype := h.dtype
    val := fun idx => (ts.getD (idx.getD d 0) h).val (idx.set d 0) }

/-- Whether `src` may be copied into a destination of shape `dst` by torch
`Tensor.copy_`: aligned from the trailing axis, every source axis must match
the destination axis or have extent 1, and extra leading source axes must have
extent 1.  Modelled from the torch broadcasting contract that governs the
`t[i] = ...` stores in `TemplateEmbedder.forward`. -/
def copyBroadcastOK (src dst : List ℕ) : Bool :=
  let n := max src.length dst.length
  (List.zipWith (fun s d => s = d || s = 1)
    (List.replicate (n - src.length) 1 ++ src)
    (List.replicate (n - dst.length) 1 ++ dst)).all id

/-- Weights of a `Linear(cIn, cOut)` primitive: an `out × in` weight matrix and
a bias vector, read as total functions. -/
structure LinearW (cIn cOut : ℕ) where
  weight : ℕ → ℕ → ℤ
  bias : ℕ → ℤ

/-- Application of a `Linear` layer to the trailing axis:
`y[..., o] = Σ_i w[o, i] * x[..., i] + b[o]`. -/
def linearApply (cIn cOut : ℕ) (L : LinearW cIn cOut) (x : Tensor) : Tensor :=
  { shape := x.shape.dropLast ++ [cOut]
    device := x.device
    dtype := x.dtype
    val := fun idx =>
      (∑ i ∈ Finset.range cIn, L.weight (idx.getLastD 0) i * x.val (idx.dropLast ++ [i]))
        + L.bias (idx.getLastD 0) }

/-- `nn.ReLU()`. -/
def relu (x : Tensor) : Tensor :=
  Tensor.map (fun v => max 0 v) x

/-- Modelled from the spec: the bucketing rule of the `one_hot` helper from
`fastfold.utils.tensor_utils`, which is not under `src/`.  Spec §4.1: boundaries
are the integers `-k .. k`; each offset selects "the bucket index of the
largest boundary not exceeding it, clamping offsets beyond ±k into the extreme
buckets". -/
def relposBucket (k : ℕ) (d : ℤ) : ℕ :=
  if d ≤ -(k : ℤ) then 0
  else if (k : ℤ) ≤ d then 2 * k
  else (d + k).toNat

/-- Modelled from the spec: `one_hot(d, boundaries)` with boundaries
`-k .. k` (spec §4.1); appends a one-hot axis of width `2k+1` selecting
`relposBucket`. -/
def oneHotBoundaries (k : ℕ) (d : Tensor) : Tensor :=
  { shape := d.shape ++ [2 * k + 1]
    device := d.device
    dtype := d.dtype
    val := fun idx => if idx.getLastD 0 = relposBucket k (d.val idx.dropLast) then 1 else 0 }

/-- The learned projections of `InputEmbedder.__init__`. -/
structure InputEmbedderM (tf_dim msa_dim c_z c_m relpos_k : ℕ) where
  linear_tf_z_i : LinearW tf_dim c_z
  linear_tf_z_j : LinearW tf_dim c_z
  linear_tf_m : LinearW tf_dim c_m
  linear_msa_m : LinearW msa_dim c_m
  linear_relpos : LinearW (2 * relpos_k + 1) c_z

/-- `InputEmbedder.relpos`: `d = ri[..., None] - ri[..., None, :]`, one-hot
against the boundary window, cast to `ri`'s dtype, then `linear_relpos`. -/
def InputEmbedder.relpos {tfd msad cz cm k : ℕ} (m : InputEmbedderM tfd msad cz cm k)
    (ri : Tensor) : Tensor :=
  let d := Tensor.binop (· - ·) (ri.unsqueezeFromEnd 0) (ri.unsqueezeFromEnd 1)
  let oh := (oneHotBoundaries k d).toDtype ri.dtype
  linearApply (2 * k + 1) cz m.linear_relpos oh

/-- `InputEmbedder.forward`: pair embedding = relpos + broadcast outer sum of
the two target-feature projections; MSA embedding = projection of the MSA
features plus the cluster-broadcast projection of the target features. -/
def InputEmbedder.forward {tfd msad cz cm k : ℕ} (m : InputEmbedderM tfd msad cz cm k)
    (tf ri msa : Tensor) : Tensor × Tensor :=
  let tf_emb_i := linearApply tfd cz m.linear_tf_z_i tf
  let tf_emb_j := linearApply tfd cz m.linear_tf_z_j tf
  let pair_emb0 := InputEmbedder.relpos m (ri.toDtype tf_emb_i.dtype)
  let pair_emb := Tensor.binop (· + ·) pair_emb0
    (Tensor.binop (· + ·) (tf_emb_i.unsqueezeFromEnd 1) (tf_emb_j.unsqueezeFromEnd 2))
  let n_clust := msa.shape.getD (msa.shape.length - 3) 0
  let tf_m := ((linearApply tfd cm m.linear_tf_m tf).unsqueezeFromEnd 2).expandAxisFromEnd 2 n_clust
  let msa_emb := Tensor.binop (· + ·) (linearApply msad cm m.linear_msa_m msa) tf_m
  (msa_emb, pair_emb)

/-- The learned projections of `TemplateAngleEmbedder.__init__`. -/
structure TemplateAngleEmbedderM (c_in c_out : ℕ) where
  linear_1 : LinearW c_in c_out
  linear_2 : LinearW c_out c_out

/-- `TemplateAngleEmbedder.forward`: `linear_1`, then ReLU, then `linear_2`. -/
def TemplateAngleEmbedder.forward {cIn cOut : ℕ} (a : TemplateAngleEmbedderM cIn cOut)
    (x : Tensor) : Tensor :=
  let x1 := linearApply cIn cOut a.linear_1 x
  let x2 := relu x1
  linearApply cOut cOut a.linear_2 x2

/-- The learned projection of `TemplatePairEmbedder.__init__`. -/
structure TemplatePairEmbedderM (c_in c_out : ℕ) where
  linear : LinearW c_in c_out

/-- `TemplatePairEmbedder.forward`: a single linear projection. -/
def TemplatePairEmbedder.forward {cIn cOut : ℕ} (p : TemplatePairEmbedderM cIn cOut)
    (x : Tensor) : Tensor :=
  linearApply cIn cOut p.linear x

/-- The runtime errors `TemplateEmbedder.forward` can raise: the `del tt,
single_template_feats` statement after the per-template loop touches names the
loop never bound when the template count is zero, which Python reports as an
`UnboundLocalError`; and the `chunk_size * 256` scaling at the
pointwise-attention call raises a `TypeError` when `chunk_size` is a
non-`None` value of a type that does not support multiplication by an
integer. -/
inductive PyErr where
  | unboundLocalError
  | typeError
deriving DecidableEq, Repr

/-- The configuration fields of `TemplateEmbedder` that its `forward` reads
directly.  The distogram sub-configuration is absorbed into the
`build_template_pair_feat` collaborator parameter. -/
structure TEConfig where
  embed_angles : Bool
  use_unit_vector : Bool
  inf : ℤ
  eps : ℤ

/-- The slice of the feature batch that `TemplateEmbedder.forward` consumes,
over an abstract per-template feature type `F`:
`n_templ` is `batch["template_aatype"].shape[templ_dim]`; `slice i` is the
result of `tensor_tree_map(lambda t: torch.index_select(t, templ_dim, i), batch)`;
`template_mask` is `batch["template_mask"]`. -/
structure TemplateBatch (F : Type) where
  n_templ : ℕ
  slice : ℕ → F
  template_mask : Tensor

/-- Shape/value transformer underlying the `TemplatePairStack` collaborator:
consumes the pair tensor's payload, the mask's payload and the
transition-masking flag, and yields the output payload. -/
abbrev PairStackCore : Type :=
  (List ℕ × (List ℕ → ℤ)) → (List ℕ × (List ℕ → ℤ)) → Bool → (List ℕ × (List ℕ → ℤ))

/-- Pooling core underlying the `TemplatePointwiseAttention` collaborator:
consumes the payloads of the stacked template embeddings, of the pair
embedding and of the template validity mask, and yields the output valuation. -/
abbrev AttCore : Type :=
  (List ℕ × (List ℕ → ℤ)) → (List ℕ × (List ℕ → ℤ)) → (List ℕ × (List ℕ → ℤ)) →
    (List ℕ → ℤ)

/-- Modelled from the spec: `build_template_angle_feat` (from
`fastfold.utils.feats`, not under `src/`) builds the per-residue template
torsion-feature tensor from a single-template slice (spec §4.4 step 3b, §6);
its internals are out of scope, so they are an arbitrary core parameter. -/
def build_template_angle_feat {F : Type} (core : F → Tensor) (feats : F) : Tensor :=
  core feats

/-- Modelled from the spec: `build_template_pair_feat` (from
`fastfold.utils.feats`, not under `src/`) builds the pairwise geometric
feature tensor from a single-template slice, parameterised by the unit-vector
flag, the numerical floor `inf`, the epsilon, and a chunk size (spec §4.4 step
3c, §6).  Per spec §5 the chunk size only subdivides the internal computation
and never influences the produced values, so the model drops it; the remaining
internals are out of scope and are an arbitrary core parameter. -/
def build_template_pair_feat {F : Type} (core : F → Bool → ℤ → ℤ → Tensor) (feats : F)
    (use_unit_vector : Bool) (inf eps : ℤ) (chunk : Option ℤ) : Tensor :=
  core feats use_unit_vector inf eps

/-- Modelled from the spec: the `TemplatePairStack` collaborator (spec §4.4
step 3d, §6) — an attention-based transformation of a single pair map under a
mask and a transition-masking flag.  Per spec §5 its chunk size is a
performance knob that never influences the produced values, so the model drops
it; the output keeps the input's placement metadata. -/
def templatePairStack (core : PairStackCore) (t mask : Tensor) (chunk_size : Option ℤ)
    (mask_trans : Bool) : Tensor :=
  let o := core t.data mask.data mask_trans
  { shape := o.1, device := t.device, dtype := t.dtype, val := o.2 }

/-- Modelled from the spec: the in-place variant of the pair stack has "an
identical contract but mutates its input sequence and returns it" (spec §6),
so it maps the standard stack over the wrapped sequence. -/
def templatePairStackInplace (core : PairStackCore) (ts : List Tensor) (mask : Tensor)
    (chunk_size : Option ℤ) (mask_trans : Bool) : List Tensor :=
  ts.map (fun x => templatePairStack core x mask chunk_size mask_trans)

/-- Modelled from the spec: the `TemplatePointwiseAttention` collaborator
(spec §4.4 step 5, §6) — attention-weighted pooling across the template axis
producing the updated pair embedding, colocated with the incoming pair
embedding.  Per spec §5 its chunk size is a performance knob that never
influences the produced values, so the model drops it; the pooling internals
are out of scope and are an arbitrary core parameter reading only the
shape/value payloads. -/
def templatePointwiseAtt (core : AttCore) (t z template_mask : Tensor)
    (chunk_size : Option ℤ) : Tensor :=
  { shape := z.shape
    device := z.device
    dtype := z.dtype
    val := core t.data z.data template_mask.data }

/-- The submodules and configuration of `TemplateEmbedder.__init__`; the two
collaborator stacks carry no weights under `src/`, so they appear as their
behavioural cores. -/
structure TemplateEmbedderM (caIn caOut cpIn cpOut : ℕ) where
  config : TEConfig
  template_angle_embedder : TemplateAngleEmbedderM caIn caOut
  template_pair_embedder : TemplatePairEmbedderM cpIn cpOut
  template_pair_stack : PairStackCore
  template_pointwise_att : AttCore

/-- The test `isinstance(chunk_size, int) and 1 <= chunk_size <= 4` guarding
the host placement of the accumulation buffer. -/
def chunkSmallInt : Option ℤ → Bool
  | some k => decide (1 ≤ k) && decide (k ≤ 4)
  | none => false

/-- The accumulation-buffer allocation of `TemplateEmbedder.forward`:
`torch.empty((n_templ, z.shape[0], z.shape[1], 64), dtype=z.dtype, device=...)`
with device `'cpu'` when `chunkSmallInt` holds, else `z.device`. -/
def TemplateEmbedder.templateBufferAlloc (n_templ : ℕ) (z : Tensor)
    (chunk_size : Option ℤ) : Tensor :=
  if chunkSmallInt chunk_size then
    Tensor.empty [n_templ, z.shape.getD 0 0, z.shape.getD 1 0, 64] Device.cpu z.dtype
  else
    Tensor.empty [n_templ, z.shape.getD 0 0, z.shape.getD 1 0, 64] z.device z.dtype

/-- The per-template loop body of `TemplateEmbedder.forward` (the pair
branch): build the pair features for template `i`, homogenise dtype/device to
`z`, embed, run the pair stack (standard or in-place), and move to the
accumulation buffer's device. -/
def TemplateEmbedder.storedTemplate {F : Type} {caIn caOut cpIn cpOut : ℕ}
    (m : TemplateEmbedderM caIn caOut cpIn cpOut) (bptfCore : F → Bool → ℤ → ℤ → Tensor)
    (batch : TemplateBatch F) (z pair_mask : Tensor) (chunk_size : Option ℤ)
    (mask_trans : Bool) (inplace : Bool) (i : ℕ) : Tensor :=
  let feats := batch.slice i
  let tt := ((build_template_pair_feat bptfCore feats m.config.use_unit_vector
      m.config.inf m.config.eps chunk_size).toDtype z.dtype).toDevice z.device
  let tt2 := TemplatePairEmbedder.forward m.template_pair_embedder tt
  let psMask := (pair_mask.unsqueezeFromEnd 2).toDtype z.dtype
  let res :=
    if inplace then
      (templatePairStackInplace m.template_pair_stack [tt2] psMask chunk_size
        mask_trans).headD tt2
    else
      templatePairStack m.template_pair_stack tt2 psMask chunk_size mask_trans
  res.toDevice (TemplateEmbedder.templateBufferAlloc batch.n_templ z chunk_size).device

/-- The filled accumulation buffer: the allocation followed by the sequential
stores `t[i] = ...` of the per-template loop. -/
def TemplateEmbedder.bufferT {F : Type} {caIn caOut cpIn cpOut : ℕ}
    (m : TemplateEmbedderM caIn caOut cpIn cpOut) (bptfCore : F → Bool → ℤ → ℤ → Tensor)
    (batch : TemplateBatch F) (z pair_mask : Tensor) (chunk_size : Option ℤ)
    (mask_trans : Bool) (inplace : Bool) : Tensor :=
  (List.range batch.n_templ).foldl
    (fun acc i => acc.store i
      (TemplateEmbedder.storedTemplate m bptfCore batch z pair_mask chunk_size
        mask_trans inplace i))
    (TemplateEmbedder.templateBufferAlloc batch.n_templ z chunk_size)

/-- The angle branch of `TemplateEmbedder.forward`: when angle embedding is
enabled, the per-template angle embeddings concatenated along the template
axis by `dict_multimap(partial(torch.cat, dim=templ_dim), ...)`. -/
def TemplateEmbedder.retPart {F : Type} {caIn caOut cpIn cpOut : ℕ}
    (m : TemplateEmbedderM caIn caOut cpIn cpOut) (batfCore : F → Tensor)
    (batch : TemplateBatch F) (templ_dim : ℕ) : Option Tensor :=
  if m.config.embed_angles then
    some (Tensor.catUnit templ_dim
      ((List.range batch.n_templ).map (fun i =>
        TemplateAngleEmbedder.forward m.template_angle_embedder
          (build_template_angle_feat batfCore (batch.slice i)))))
  else
    none

/-- `TemplateEmbedder.forward`: the per-template loop filling the accumulation
buffer, the `del tt, single_template_feats` statement — which raises
`UnboundLocalError` when the loop never ran, i.e. when `n_templ = 0` — the
angle-embedding concatenation, and the pointwise-attention pooling with the
chunk size scaled by 256 when present. -/
def TemplateEmbedder.forward {F : Type} {caIn caOut cpIn cpOut : ℕ}
    (m : TemplateEmbedderM caIn caOut cpIn cpOut) (batfCore : F → Tensor)
    (bptfCore : F → Bool → ℤ → ℤ → Tensor) (batch : TemplateBatch F)
    (z pair_mask : Tensor) (templ_dim : ℕ) (chunk_size : Option ℤ)
    (mask_trans : Bool) (inplace : Bool) : Except PyErr (Option Tensor × Tensor) :=
  let n := batch.n_templ
  let t := TemplateEmbedder.bufferT m bptfCore batch z pair_mask chunk_size
    mask_trans inplace
  if n = 0 then
    Except.error PyErr.unboundLocalError
  else
    Except.ok
      (TemplateEmbedder.retPart m batfCore batch templ_dim,
       templatePointwiseAtt m.template_pointwise_att t z
         (batch.template_mask.toDtype z.dtype)
         (match chunk_size with
          | some k => some (k * 256)
          | none => none))

/-- The full Python argument domain of the `chunk_size` parameter, refining
the `Option ℤ` view used above: `none` is Python `None`, `int k` is a Python
`int` (the supported chunking type), and `obj` is a non-`None` value of an
unsupported non-numeric type — one that fails `isinstance(chunk_size, int)`
and does not support multiplication by an integer (for example a `dict`). -/
inductive PyChunk where
  | none
  | int (k : ℤ)
  | obj
deriving DecidableEq, Repr

/-- The test `isinstance(chunk_size, int) and 1 <= chunk_size <= 4` on the
full Python argument domain: `None` and unsupported non-integer values fail
the `isinstance` check. -/
def chunkSmallIntPy : PyChunk → Bool
  | PyChunk.int k => decide (1 ≤ k) && decide (k ≤ 4)
  | _ => false

/-- The accumulation-buffer allocation (embedders.py:172-175) on the full
Python argument domain of `chunk_size`; identical to
`TemplateEmbedder.templateBufferAlloc` with the `isinstance` guard read over
`PyChunk`. -/
def TemplateEmbedder.templateBufferAllocPy (n_templ : ℕ) (z : Tensor)
    (chunk_size : PyChunk) : Tensor :=
  if chunkSmallIntPy chunk_size then
    Tensor.empty [n_templ, z.shape.getD 0 0, z.shape.getD 1 0, 64] Device.cpu z.dtype
  else
    Tensor.empty [n_templ, z.shape.getD 0 0, z.shape.getD 1 0, 64] z.device z.dtype

/-- Modelled from the spec: `build_template_pair_feat` as in
`build_template_pair_feat` above, with the chunk argument read over the full
Python domain; the chunk never influences the produced values (spec §5). -/
def build_template_pair_featPy {F : Type} (core : F → Bool → ℤ → ℤ → Tensor) (feats : F)
    (use_unit_vector : Bool) (inf eps : ℤ) (chunk : PyChunk) : Tensor :=
  core feats use_unit_vector inf eps

/-- Modelled from the spec: the `TemplatePairStack` collaborator as in
`templatePairStack` above, with the chunk argument read over the full Python
domain; the chunk never influences the produced values (spec §5). -/
def templatePairStackPy (core : PairStackCore) (t mask : Tensor) (chunk_size : PyChunk)
    (mask_trans : Bool) : Tensor :=
  let o := core t.data mask.data mask_trans
  { shape := o.1, device := t.device, dtype := t.dtype, val := o.2 }

/-- Modelled from the spec: the in-place pair-stack variant as in
`templatePairStackInplace` above, over the full Python chunk domain. -/
def templatePairStackInplacePy (core : PairStackCore) (ts : List Tensor) (mask : Tensor)
    (chunk_size : PyChunk) (mask_trans : Bool) : List Tensor :=
  ts.map (fun x => templatePairStackPy core x mask chunk_size mask_trans)

/-- Modelled from the spec: the `TemplatePointwiseAttention` collaborator as
in `templatePointwiseAtt` above, over the full Python chunk domain; the chunk
never influences the produced values (spec §5). -/
def templatePointwiseAttPy (core : AttCore) (t z template_mask : Tensor)
    (chunk_size : PyChunk) : Tensor :=
  { shape := z.shape
    device := z.device
    dtype := z.dtype
    val := core t.data z.data template_mask.data }

/-- The argument expression
`chunk_size * 256 if chunk_size is not None else chunk_size` of the
pointwise-attention call (embedders.py:239), evaluated on the full Python
domain: `None` passes through, an `int` is scaled, and a non-numeric
unsupported value raises `TypeError` because it does not support
multiplication by an integer. -/
def pyScaleChunk : PyChunk → Except PyErr PyChunk
  | PyChunk.none => Except.ok PyChunk.none
  | PyChunk.int k => Except.ok (PyChunk.int (k * 256))
  | PyChunk.obj => Except.error PyErr.typeError

/-- The per-template loop body (pair branch) over the full Python chunk
domain; identical to `TemplateEmbedder.storedTemplate`. -/
def TemplateEmbedder.storedTemplatePy {F : Type} {caIn caOut cpIn cpOut : ℕ}
    (m : TemplateEmbedderM caIn caOut cpIn cpOut) (bptfCore : F → Bool → ℤ → ℤ → Tensor)
    (batch : TemplateBatch F) (z pair_mask : Tensor) (chunk_size : PyChunk)
    (mask_trans : Bool) (inplace : Bool) (i : ℕ) : Tensor :=
  let feats := batch.slice i
  let tt := ((build_template_pair_featPy bptfCore feats m.config.use_unit_vector
      m.config.inf m.config.eps chunk_size).toDtype z.dtype).toDevice z.device
  let tt2 := TemplatePairEmbedder.forward m.template_pair_embedder tt
  let psMask := (pair_mask.unsqueezeFromEnd 2).toDtype z.dtype
  let res :=
    if inplace then
      (templatePairStackInplacePy m.template_pair_stack [tt2] psMask chunk_size
        mask_trans).headD tt2
    else
      templatePairStackPy m.template_pair_stack tt2 psMask chunk_size mask_trans
  res.toDevice (TemplateEmbedder.templateBufferAllocPy batch.n_templ z chunk_size).device

/-- The filled accumulation buffer over the full Python chunk domain;
identical to `TemplateEmbedder.bufferT`. -/
def TemplateEmbedder.bufferTPy {F : Type} {caIn caOut cpIn cpOut : ℕ}
    (m : TemplateEmbedderM caIn caOut cpIn cpOut) (bptfCore : F → Bool → ℤ → ℤ → Tensor)
    (batch : TemplateBatch F) (z pair_mask : Tensor) (chunk_size : PyChunk)
    (mask_trans : Bool) (inplace : Bool) : Tensor :=
  (List.range batch.n_templ).foldl
    (fun acc i => acc.store i
      (TemplateEmbedder.storedTemplatePy m bptfCore batch z pair_mask chunk_size
        mask_trans inplace i))
    (TemplateEmbedder.templateBufferAllocPy batch.n_templ z chunk_size)

/-- `TemplateEmbedder.forward` over the full Python argument domain of
`chunk_size`: identical to `TemplateEmbedder.forward` above, except that the
`chunk_size * 256` scaling of the pointwise-attention argument is evaluated by
`pyScaleChunk` and so raises `TypeError` for an unsupported non-numeric
`chunk_size` (argument evaluation happens before the call); `forward` is the
restriction of this function to the supported `None`/`int` values. -/
def TemplateEmbedder.forwardPy {F : Type} {caIn caOut cpIn cpOut : ℕ}
    (m : TemplateEmbedderM caIn caOut cpIn cpOut) (batfCore : F → Tensor)
    (bptfCore : F → Bool → ℤ → ℤ → Tensor) (batch : TemplateBatch F)
    (z pair_mask : Tensor) (templ_dim : ℕ) (chunk_size : PyChunk)
    (mask_trans : Bool) (inplace : Bool) : Except PyErr (Option Tensor × Tensor) :=
  let n := batch.n_templ
  let t := TemplateEmbedder.bufferTPy m bptfCore batch z pair_mask chunk_size
    mask_trans inplace
  if n = 0 then
    Except.error PyErr.unboundLocalError
  else
    match pyScaleChunk chunk_size with
    | Except.error e => Except.error e
    | Except.ok scaled =>
        Except.ok
          (TemplateEmbedder.retPart m batfCore batch templ_dim,
           templatePointwiseAttPy m.template_pointwise_att t z
             (batch.template_mask.toDtype z.dtype) scaled)

/-- All-zero linear weights (for concrete instantiations). -/
def zeroLW (a b : ℕ) : LinearW a b :=
  { weight := fun _ _ => 0, bias := fun _ => 0 }

/-- All-one linear weights (for concrete instantiations). -/
def onesLW (a b : ℕ) : LinearW a b :=
  { weight := fun _ _ => 1, bias := fun _ => 1 }

/-- An all-zero host tensor of the given shape. -/
def T0 (s : List ℕ) : Tensor :=
  { shape := s, device := Device.cpu, dtype := Dtype.f32, val := fun _ => 0 }

/-- An all-zero accelerator tensor standing for a pair embedding on a GPU. -/
def zCuda : Tensor :=
  { shape := [3, 3, 64], device := Device.cuda 0, dtype := Dtype.f32, val := fun _ => 0 }

/-- The spec's concrete Input Embedder scenario:
`tf_dim=22, msa_dim=49, c_z=128, c_m=256, relpos_k=32`. -/
def ieScenario : InputEmbedderM 22 49 128 256 32 :=
  ⟨zeroLW 22 128, zeroLW 22 128, zeroLW 22 256, zeroLW 49 256, zeroLW 65 128⟩

/-- A small concrete Input Embedder for witness evaluation. -/
def ieSmall : InputEmbedderM 2 2 2 2 1 :=
  ⟨onesLW 2 2, onesLW 2 2, onesLW 2 2, onesLW 2 2, onesLW 3 2⟩

/-- A small concrete Template Angle Embedder. -/
def aeSmall : TemplateAngleEmbedderM 2 3 := ⟨onesLW 2 3, onesLW 3 3⟩

/-- The spec's concrete Template Angle Embedder scenario: `c_in=57, c_out=256`. -/
def aeScenario : TemplateAngleEmbedderM 57 256 := ⟨zeroLW 57 256, zeroLW 256 256⟩

/-- The concrete input of the angle-embedder scenario, shape `[1,4,10,57]`. -/
def xAngle : Tensor := T0 [1, 4, 10, 57]

/-- A small concrete Template Pair Embedder. -/
def peSmall : TemplatePairEmbedderM 2 3 := ⟨onesLW 2 3⟩

/-- A concrete pair-stack core: the identity transformation. -/
def stackCoreId : PairStackCore := fun p _ _ => p

/-- A concrete pointwise-attention core: returns the pair embedding's values. -/
def attCoreZ : AttCore := fun _ zd _ => zd.2

/-- A concrete template-embedder configuration with angle embedding enabled. -/
def teCfg : TEConfig :=
  { embed_angles := true, use_unit_vector := true, inf := 1000000000, eps := 1 }

/-- A small concrete Template Embedder module. -/
def teM : TemplateEmbedderM 2 3 2 3 := ⟨teCfg, aeSmall, peSmall, stackCoreId, attCoreZ⟩

/-- A concrete angle-feature builder core. -/
def batf0 : Unit → Tensor := fun _ => T0 [1, 2, 2]

/-- A concrete pair-feature builder core. -/
def bptf0 : Unit → Bool → ℤ → ℤ → Tensor := fun _ _ _ _ => T0 [1, 2, 2, 2]

/-- A concrete batch with zero templates. -/
def batch0 : TemplateBatch Unit := ⟨0, fun _ => (), T0 [0]⟩

/-- A concrete batch with one template. -/
def batch1 : TemplateBatch Unit := ⟨1, fun _ => (), T0 [1]⟩

/-- A concrete incoming pair embedding. -/
def zSmall : Tensor := T0 [2, 2, 3]

/-- A concrete pair mask. -/
def pmSmall : Tensor := T0 [2, 2]

theorem Tensor.eqv (a b : Tensor) (h1 : a.shape = b.shape) (h2 : a.device = b.device)
    (h3 : a.dtype = b.dtype) (h4 : a.val = b.val) : a = b := by
  cases a; cases b; cases h1; cases h2; cases h3; cases h4; rfl

theorem templateBufferAlloc_shape (n : ℕ) (z : Tensor) (cs : Option ℤ) :
    (TemplateEmbedder.templateBufferAlloc n z cs).shape
      = [n, z.shape.getD 0 0, z.shape.getD 1 0, 64] := by
  unfold TemplateEmbedder.templateBufferAlloc
  split <;> rfl

theorem templateBufferAlloc_val (n : ℕ) (z : Tensor) (cs : Option ℤ) :
    (TemplateEmbedder.templateBufferAlloc n z cs).val = fun _ => 0 := by
  unfold TemplateEmbedder.templateBufferAlloc
  split <;> rfl

/-- **C1.** With `T = 0` templates the per-template loop never executes, so the
`del tt, single_template_feats` statement after the loop touches unbound
locals and the call raises `UnboundLocalError` instead of returning normally:
evaluating the embedded `TemplateEmbedder.forward` on a concrete zero-template
batch yields the error. -/
theorem claim_C1_zero_templates_raise_unbound_local :
    TemplateEmbedder.forward teM batf0 bptf0 batch0 zSmall pmSmall 0 none true false
      = Except.error PyErr.unboundLocalError := rfl

/-- **C3.** `InputEmbedder.relpos` is translation-invariant in the residue
index: shifting every index by a constant `c` leaves the output unchanged,
because the output depends on the indices only through their pairwise
differences. -/
theorem claim_C3_relpos_translation_invariant {tfd msad cz cm k : ℕ}
    (m : InputEmbedderM tfd msad cz cm k) (ri : Tensor) (c : ℤ) :
    InputEmbedder.relpos m (ri.map (· + c)) = InputEmbedder.relpos m ri := by
  have hd : Tensor.binop (· - ·) ((ri.map (· + c)).unsqueezeFromEnd 0)
        ((ri.map (· + c)).unsqueezeFromEnd 1)
      = Tensor.binop (· - ·) (ri.unsqueezeFromEnd 0) (ri.unsqueezeFromEnd 1) := by
    apply Tensor.eqv
    · rfl
    · rfl
    · rfl
    · funext idx
      simp [Tensor.binop, Tensor.unsqueezeFromEnd, Tensor.map]
  show linearApply (2 * k + 1) cz m.linear_relpos
      ((oneHotBoundaries k (Tensor.binop (· - ·) ((ri.map (· + c)).unsqueezeFromEnd 0)
        ((ri.map (· + c)).unsqueezeFromEnd 1))).toDtype (ri.map (· + c)).dtype)
    = linearApply (2 * k + 1) cz m.linear_relpos
      ((oneHotBoundaries k (Tensor.binop (· - ·) (ri.unsqueezeFromEnd 0)
        (ri.unsqueezeFromEnd 1))).toDtype ri.dtype)
  rw [hd]
  rfl

/-- **C7.** The accumulation buffer of `TemplateEmbedder.forward` is placed on
the host exactly when the chunk size is an integer in `1..4`; in every other
case it is allocated on the incoming pair embedding's device, and its dtype is
always the pair embedding's dtype. -/
theorem claim_C7_buffer_placement (n : ℕ) (z : Tensor) (cs : Option ℤ)
    (hz : z.device ≠ Device.cpu) :
    ((TemplateEmbedder.templateBufferAlloc n z cs).device = Device.cpu ↔
      ∃ k, cs = some k ∧ 1 ≤ k ∧ k ≤ 4)
    ∧ (TemplateEmbedder.templateBufferAlloc n z cs).dtype = z.dtype
    ∧ (¬(∃ k, cs = some k ∧ 1 ≤ k ∧ k ≤ 4) →
        (TemplateEmbedder.templateBufferAlloc n z cs).device = z.device) := by
  have hsmall : chunkSmallInt cs = true ↔ ∃ k, cs = some k ∧ 1 ≤ k ∧ k ≤ 4 := by
    cases cs with
    | none => simp [chunkSmallInt]
    | some k => simp [chunkSmallInt]
  refine ⟨?_, ?_, ?_⟩
  · by_cases h : chunkSmallInt cs = true
    · simp [TemplateEmbedder.templateBufferAlloc, h, Tensor.empty, hsmall.mp h]
    · simp only [TemplateEmbedder.templateBufferAlloc, h, if_false, Bool.false_eq_true,
        Tensor.empty]
      constructor
      · intro hcpu; exact absurd hcpu hz
      · intro hex; exact absurd (hsmall.mpr hex) h
  · by_cases h : chunkSmallInt cs = true <;>
      simp [TemplateEmbedder.templateBufferAlloc, h, Tensor.empty]
  · intro hno
    have h : chunkSmallInt cs = false := by
      by_cases h : chunkSmallInt cs = true
      · exact absurd (hsmall.mp h) hno
      · simpa using h
    simp [TemplateEmbedder.templateBufferAlloc, h, Tensor.empty]

/-- Witness for C7 at a concrete accelerator-resident pair embedding and chunk
size 2. -/
theorem claim_C7_witness :
    (zCuda.device ≠ Device.cpu)
    ∧ (((TemplateEmbedder.templateBufferAlloc 2 zCuda (some 2)).device = Device.cpu ↔
          ∃ k, (some 2 : Option ℤ) = some k ∧ 1 ≤ k ∧ k ≤ 4)
       ∧ (TemplateEmbedder.templateBufferAlloc 2 zCuda (some 2)).dtype = zCuda.dtype
       ∧ (¬(∃ k, (some 2 : Option ℤ) = some k ∧ 1 ≤ k ∧ k ≤ 4) →
            (TemplateEmbedder.templateBufferAlloc 2 zCuda (some 2)).device = zCuda.device)) :=
  ⟨by decide, claim_C7_buffer_placement 2 zCuda (some 2) (by decide)⟩

/-- **C10.** The accumulation buffer takes its spatial extents from
`z.shape[0]` and `z.shape[1]` with a hard-coded channel width 64; storing a
per-template pair-stack result into a buffer slice is shape-correct for an
unbatched 3-dimensional `z` with stack output channel 64, but a batched
4-dimensional `z` misallocates the buffer and the store is rejected by the
copy broadcasting rule; moreover for channel widths ≥ 2 the store is accepted
exactly at width 64. -/
theorem claim_C10_buffer_shape_unbatched_only (T N C : ℕ) (z zb : Tensor)
    (cs : Option ℤ) (hz : z.shape = [N, N, C]) (hzb : zb.shape = [1, N, N, C])
    (hN : 2 ≤ N) :
    (TemplateEmbedder.templateBufferAlloc T z cs).shape = [T, N, N, 64]
    ∧ (TemplateEmbedder.templateBufferAlloc T zb cs).shape = [T, 1, N, 64]
    ∧ copyBroadcastOK [1, N, N, 64]
        ((TemplateEmbedder.templateBufferAlloc T z cs).shape.drop 1) = true
    ∧ copyBroadcastOK [1, 1, N, N, 64]
        ((TemplateEmbedder.templateBufferAlloc T zb cs).shape.drop 1) = false
    ∧ (∀ cOut, 2 ≤ cOut →
        (copyBroadcastOK [1, N, N, cOut] [N, N, 64] = true ↔ cOut = 64)) := by
  have h1 : (TemplateEmbedder.templateBufferAlloc T z cs).shape = [T, N, N, 64] := by
    rw [templateBufferAlloc_shape, hz]; rfl
  have h2 : (TemplateEmbedder.templateBufferAlloc T zb cs).shape = [T, 1, N, 64] := by
    rw [templateBufferAlloc_shape, hzb]; rfl
  refine ⟨h1, h2, ?_, ?_, ?_⟩
  · rw [h1]; simp [copyBroadcastOK]
  · rw [h2]; simp [copyBroadcastOK]; omega
  · intro cOut hc
    simp [copyBroadcastOK]; omega

/-- Witness for C10 at `N = 3`, channel 64, a concrete unbatched and batched
pair embedding. -/
theorem claim_C10_witness :
    ((T0 [3, 3, 64]).shape = [3, 3, 64] ∧ (T0 [1, 3, 3, 64]).shape = [1, 3, 3, 64]
      ∧ 2 ≤ 3)
    ∧ (TemplateEmbedder.templateBufferAlloc 2 (T0 [3, 3, 64]) none).shape = [2, 3, 3, 64]
    ∧ copyBroadcastOK [1, 3, 3, 64]
        ((TemplateEmbedder.templateBufferAlloc 2 (T0 [3, 3, 64]) none).shape.drop 1) = true
    ∧ copyBroadcastOK [1, 1, 3, 3, 64]
        ((TemplateEmbedder.templateBufferAlloc 2 (T0 [1, 3, 3, 64]) none).shape.drop 1) = false
    ∧ (copyBroadcastOK [1, 3, 3, 128] [3, 3, 64] = true ↔ (128 : ℕ) = 64) := by
  have h := claim_C10_buffer_shape_unbatched_only 2 3 64 (T0 [3, 3, 64]) (T0 [1, 3, 3, 64])
    none rfl rfl (by decide)
  exact ⟨⟨rfl, rfl, by decide⟩, h.1, h.2.2.1, h.2.2.2.1, h.2.2.2.2 128 (by decide)⟩

theorem foldl_store_shape (g : ℕ → Tensor) (l : List ℕ) (a : Tensor) :
    (l.foldl (fun acc i => acc.store i (g i)) a).shape = a.shape := by
  induction l generalizing a with
  | nil => rfl
  | cons x xs ih =>
      rw [List.foldl_cons, ih]
      rfl

theorem foldl_store_val (g₁ g₂ : ℕ → Tensor) (hv : ∀ i, (g₁ i).val = (g₂ i).val)
    (hs : ∀ i, (g₁ i).shape = (g₂ i).shape) (l : List ℕ) :
    ∀ a₁ a₂ : Tensor, a₁.val = a₂.val →
      (l.foldl (fun acc i => acc.store i (g₁ i)) a₁).val
        = (l.foldl (fun acc i => acc.store i (g₂ i)) a₂).val := by
  induction l with
  | nil => intro a₁ a₂ h; exact h
  | cons x xs ih =>
      intro a₁ a₂ h
      rw [List.foldl_cons, List.foldl_cons]
      apply ih
      funext idx
      simp [Tensor.store, h, hv x, hs x]

theorem storedTemplate_val_chunk {F : Type} {caIn caOut cpIn cpOut : ℕ}
    (m : TemplateEmbedderM caIn caOut cpIn cpOut) (bptfCore : F → Bool → ℤ → ℤ → Tensor)
    (batch : TemplateBatch F) (z pair_mask : Tensor) (cs₁ cs₂ : Option ℤ)
    (mt ip : Bool) (i : ℕ) :
    (TemplateEmbedder.storedTemplate m bptfCore batch z pair_mask cs₁ mt ip i).val
      = (TemplateEmbedder.storedTemplate m bptfCore batch z pair_mask cs₂ mt ip i).val := by
  cases ip <;> rfl

theorem storedTemplate_shape_chunk {F : Type} {caIn caOut cpIn cpOut : ℕ}
    (m : TemplateEmbedderM caIn caOut cpIn cpOut) (bptfCore : F → Bool → ℤ → ℤ → Tensor)
    (batch : TemplateBatch F) (z pair_mask : Tensor) (cs₁ cs₂ : Option ℤ)
    (mt ip : Bool) (i : ℕ) :
    (TemplateEmbedder.storedTemplate m bptfCore batch z pair_mask cs₁ mt ip i).shape
      = (TemplateEmbedder.storedTemplate m bptfCore batch z pair_mask cs₂ mt ip i).shape := by
  cases ip <;> rfl

theorem bufferT_val_chunk {F : Type} {caIn caOut cpIn cpOut : ℕ}
    (m : TemplateEmbedderM caIn caOut cpIn cpOut) (bptfCore : F → Bool → ℤ → ℤ → Tensor)
    (batch : TemplateBatch F) (z pair_mask : Tensor) (cs₁ cs₂ : Option ℤ)
    (mt ip : Bool) :
    (TemplateEmbedder.bufferT m bptfCore batch z pair_mask cs₁ mt ip).val
      = (TemplateEmbedder.bufferT m bptfCore batch z pair_mask cs₂ mt ip).val := by
  unfold TemplateEmbedder.bufferT
  apply foldl_store_val
  · intro i; exact storedTemplate_val_chunk m bptfCore batch z pair_mask cs₁ cs₂ mt ip i
  · intro i; exact storedTemplate_shape_chunk m bptfCore batch z pair_mask cs₁ cs₂ mt ip i
  · rw [templateBufferAlloc_val, templateBufferAlloc_val]

theorem bufferT_shape {F : Type} {caIn caOut cpIn cpOut : ℕ}
    (m : TemplateEmbedderM caIn caOut cpIn cpOut) (bptfCore : F → Bool → ℤ → ℤ → Tensor)
    (batch : TemplateBatch F) (z pair_mask : Tensor) (cs : Option ℤ) (mt ip : Bool) :
    (TemplateEmbedder.bufferT m bptfCore batch z pair_mask cs mt ip).shape
      = [batch.n_templ, z.shape.getD 0 0, z.shape.getD 1 0, 64] := by
  unfold TemplateEmbedder.bufferT
  rw [foldl_store_shape, templateBufferAlloc_shape]

theorem forward_chunk_invariant {F : Type} {caIn caOut cpIn cpOut : ℕ}
    (m : TemplateEmbedderM caIn caOut cpIn cpOut) (batfCore : F → Tensor)
    (bptfCore : F → Bool → ℤ → ℤ → Tensor) (batch : TemplateBatch F)
    (z pair_mask : Tensor) (templ_dim : ℕ) (cs₁ cs₂ : Option ℤ) (mt ip : Bool) :
    TemplateEmbedder.forward m batfCore bptfCore batch z pair_mask templ_dim cs₁ mt ip
      = TemplateEmbedder.forward m batfCore bptfCore batch z pair_mask templ_dim cs₂ mt ip := by
  by_cases hn : batch.n_templ = 0
  · simp [TemplateEmbedder.forward, hn]
  · simp only [TemplateEmbedder.forward, hn, if_neg, templatePointwiseAtt, Tensor.data]
    rw [bufferT_val_chunk m bptfCore batch z pair_mask cs₁ cs₂ mt ip,
        bufferT_shape, bufferT_shape]

/-- **C2.** For every fixed batch, pair embedding, pair mask and weights (and
any collaborator cores, which per the spec subdivide only their internal
computation under chunking), `TemplateEmbedder.forward` returns identical
outputs — the output mapping and the updated pair embedding — for chunk sizes
`None`, `1`, `4` and `16`. -/
theorem claim_C2_chunk_size_output_invariance {F : Type} {caIn caOut cpIn cpOut : ℕ}
    (m : TemplateEmbedderM caIn caOut cpIn cpOut) (batfCore : F → Tensor)
    (bptfCore : F → Bool → ℤ → ℤ → Tensor) (batch : TemplateBatch F)
    (z pair_mask : Tensor) (templ_dim : ℕ) (mt ip : Bool) :
    TemplateEmbedder.forward m batfCore bptfCore batch z pair_mask templ_dim (some 1) mt ip
      = TemplateEmbedder.forward m batfCore bptfCore batch z pair_mask templ_dim none mt ip
    ∧ TemplateEmbedder.forward m batfCore bptfCore batch z pair_mask templ_dim (some 4) mt ip
      = TemplateEmbedder.forward m batfCore bptfCore batch z pair_mask templ_dim none mt ip
    ∧ TemplateEmbedder.forward m batfCore bptfCore batch z pair_mask templ_dim (some 16) mt ip
      = TemplateEmbedder.forward m batfCore bptfCore batch z pair_mask templ_dim none mt ip :=
  ⟨forward_chunk_invariant m batfCore bptfCore batch z pair_mask templ_dim (some 1) none mt ip,
   forward_chunk_invariant m batfCore bptfCore batch z pair_mask templ_dim (some 4) none mt ip,
   forward_chunk_invariant m batfCore bptfCore batch z pair_mask templ_dim (some 16) none mt ip⟩

theorem templateBufferAllocPy_shape (n : ℕ) (z : Tensor) (cs : PyChunk) :
    (TemplateEmbedder.templateBufferAllocPy n z cs).shape
      = [n, z.shape.getD 0 0, z.shape.getD 1 0, 64] := by
  unfold TemplateEmbedder.templateBufferAllocPy
  split <;> rfl

theorem templateBufferAllocPy_val (n : ℕ) (z : Tensor) (cs : PyChunk) :
    (TemplateEmbedder.templateBufferAllocPy n z cs).val = fun _ => 0 := by
  unfold TemplateEmbedder.templateBufferAllocPy
  split <;> rfl

theorem storedTemplatePy_val_chunk {F : Type} {caIn caOut cpIn cpOut : ℕ}
    (m : TemplateEmbedderM caIn caOut cpIn cpOut) (bptfCore : F → Bool → ℤ → ℤ → Tensor)
    (batch : TemplateBatch F) (z pair_mask : Tensor) (cs₁ cs₂ : PyChunk)
    (mt ip : Bool) (i : ℕ) :
    (TemplateEmbedder.storedTemplatePy m bptfCore batch z pair_mask cs₁ mt ip i).val
      = (TemplateEmbedder.storedTemplatePy m bptfCore batch z pair_mask cs₂ mt ip i).val := by
  cases ip <;> rfl

theorem storedTemplatePy_shape_chunk {F : Type} {caIn caOut cpIn cpOut : ℕ}
    (m : TemplateEmbedderM caIn caOut cpIn cpOut) (bptfCore : F → Bool → ℤ → ℤ → Tensor)
    (batch : TemplateBatch F) (z pair_mask : Tensor) (cs₁ cs₂ : PyChunk)
    (mt ip : Bool) (i : ℕ) :
    (TemplateEmbedder.storedTemplatePy m bptfCore batch z pair_mask cs₁ mt ip i).shape
      = (TemplateEmbedder.storedTemplatePy m bptfCore batch z pair_mask cs₂ mt ip i).shape := by
  cases ip <;> rfl

theorem bufferTPy_val_chunk {F : Type} {caIn caOut cpIn cpOut : ℕ}
    (m : TemplateEmbedderM caIn caOut cpIn cpOut) (bptfCore : F → Bool → ℤ → ℤ → Tensor)
    (batch : TemplateBatch F) (z pair_mask : Tensor) (cs₁ cs₂ : PyChunk)
    (mt ip : Bool) :
    (TemplateEmbedder.bufferTPy m bptfCore batch z pair_mask cs₁ mt ip).val
      = (TemplateEmbedder.bufferTPy m bptfCore batch z pair_mask cs₂ mt ip).val := by
  unfold TemplateEmbedder.bufferTPy
  apply foldl_store_val
  · intro i; exact storedTemplatePy_val_chunk m bptfCore batch z pair_mask cs₁ cs₂ mt ip i
  · intro i; exact storedTemplatePy_shape_chunk m bptfCore batch z pair_mask cs₁ cs₂ mt ip i
  · rw [templateBufferAllocPy_val, templateBufferAllocPy_val]

theorem bufferTPy_shape {F : Type} {caIn caOut cpIn cpOut : ℕ}
    (m : TemplateEmbedderM caIn caOut cpIn cpOut) (bptfCore : F → Bool → ℤ → ℤ → Tensor)
    (batch : TemplateBatch F) (z pair_mask : Tensor) (cs : PyChunk) (mt ip : Bool) :
    (TemplateEmbedder.bufferTPy m bptfCore batch z pair_mask cs mt ip).shape
      = [batch.n_templ, z.shape.getD 0 0, z.shape.getD 1 0, 64] := by
  unfold TemplateEmbedder.bufferTPy
  rw [foldl_store_shape, templateBufferAllocPy_shape]

theorem forwardPy_chunk_invariant {F : Type} {caIn caOut cpIn cpOut : ℕ}
    (m : TemplateEmbedderM caIn caOut cpIn cpOut) (batfCore : F → Tensor)
    (bptfCore : F → Bool → ℤ → ℤ → Tensor) (batch : TemplateBatch F)
    (z pair_mask : Tensor) (templ_dim : ℕ) (cs₁ cs₂ : PyChunk) (mt ip : Bool)
    (h1 : cs₁ ≠ PyChunk.obj) (h2 : cs₂ ≠ PyChunk.obj) :
    TemplateEmbedder.forwardPy m batfCore bptfCore batch z pair_mask templ_dim cs₁ mt ip
      = TemplateEmbedder.forwardPy m batfCore bptfCore batch z pair_mask templ_dim cs₂ mt ip := by
  by_cases hn : batch.n_templ = 0
  · simp [TemplateEmbedder.forwardPy, hn]
  · cases cs₁ <;> cases cs₂ <;>
      first
        | exact absurd rfl h1
        | exact absurd rfl h2
        | rfl
        | (simp only [TemplateEmbedder.forwardPy, hn, if_neg, pyScaleChunk,
             templatePointwiseAttPy, Tensor.data]
           rw [bufferTPy_val_chunk m bptfCore batch z pair_mask _ _ mt ip,
               bufferTPy_shape, bufferTPy_shape])

/-- **C8 (counterexample).** The claim fails on the code for a `chunk_size` of
an unsupported non-numeric type: with such a value the embedded
`TemplateEmbedder.forward` raises `TypeError` at the `chunk_size * 256`
pointwise-attention scaling (embedders.py:239) instead of producing the
`chunk_size=None` result, which the same call with `None` does produce. -/
theorem claim_C8_counterexample :
    TemplateEmbedder.forwardPy teM batf0 bptf0 batch1 zSmall pmSmall 0 PyChunk.obj true false
      = Except.error PyErr.typeError
    ∧ TemplateEmbedder.forwardPy teM batf0 bptf0 batch1 zSmall pmSmall 0 PyChunk.none true false
      ≠ TemplateEmbedder.forwardPy teM batf0 bptf0 batch1 zSmall pmSmall 0 PyChunk.obj
          true false :=
  ⟨rfl, fun h => Except.noConfusion h⟩

/-- **C8 (amended).** For every `chunk_size` of a supported type (`None` or
`int`) whose value is not a positive integer in the small-buffer heuristic
range `1..4`, `TemplateEmbedder.forward` behaves as if no chunking were
requested: the result equals the `chunk_size=None` result and the accumulation
buffer is placed as for `None`.  An unsupported non-numeric `chunk_size` is
still treated as no chunking by the buffer-placement heuristic, but the call
itself then fails at the `chunk_size * 256` scaling (see the
counterexample). -/
theorem claim_C8_supported_nonsmall_chunk_behaves_like_none {F : Type}
    {caIn caOut cpIn cpOut : ℕ} (m : TemplateEmbedderM caIn caOut cpIn cpOut)
    (batfCore : F → Tensor) (bptfCore : F → Bool → ℤ → ℤ → Tensor)
    (batch : TemplateBatch F) (z pair_mask : Tensor) (templ_dim : ℕ) (cs : PyChunk)
    (mt ip : Bool) (hnum : cs ≠ PyChunk.obj)
    (h : ∀ k, cs = PyChunk.int k → ¬(1 ≤ k ∧ k ≤ 4)) :
    TemplateEmbedder.forwardPy m batfCore bptfCore batch z pair_mask templ_dim cs mt ip
      = TemplateEmbedder.forwardPy m batfCore bptfCore batch z pair_mask templ_dim
          PyChunk.none mt ip
    ∧ (TemplateEmbedder.templateBufferAllocPy batch.n_templ z cs).device
      = (TemplateEmbedder.templateBufferAllocPy batch.n_templ z PyChunk.none).device
    ∧ (TemplateEmbedder.templateBufferAllocPy batch.n_templ z PyChunk.obj).device
      = (TemplateEmbedder.templateBufferAllocPy batch.n_templ z PyChunk.none).device := by
  refine ⟨forwardPy_chunk_invariant m batfCore bptfCore batch z pair_mask templ_dim cs
    PyChunk.none mt ip hnum (by intro hx; exact PyChunk.noConfusion hx), ?_, rfl⟩
  have hsm : chunkSmallIntPy cs = false := by
    cases cs with
    | none => rfl
    | obj => rfl
    | int k =>
        have hk := h k rfl
        simp [chunkSmallIntPy]
        omega
  have hsm2 : chunkSmallIntPy PyChunk.none = false := rfl
  simp [TemplateEmbedder.templateBufferAllocPy, hsm, hsm2, Tensor.empty]

/-- Witness for the amended C8 at the supported out-of-range chunk size 16 on
a concrete batch. -/
theorem claim_C8_amended_witness :
    ((PyChunk.int 16 ≠ PyChunk.obj)
      ∧ (∀ k : ℤ, PyChunk.int 16 = PyChunk.int k → ¬(1 ≤ k ∧ k ≤ 4)))
    ∧ (TemplateEmbedder.forwardPy teM batf0 bptf0 batch1 zSmall pmSmall 0 (PyChunk.int 16)
          true false
        = TemplateEmbedder.forwardPy teM batf0 bptf0 batch1 zSmall pmSmall 0 PyChunk.none
            true false
      ∧ (TemplateEmbedder.templateBufferAllocPy batch1.n_templ zSmall (PyChunk.int 16)).device
        = (TemplateEmbedder.templateBufferAllocPy batch1.n_templ zSmall PyChunk.none).device
      ∧ (TemplateEmbedder.templateBufferAllocPy batch1.n_templ zSmall PyChunk.obj).device
        = (TemplateEmbedder.templateBufferAllocPy batch1.n_templ zSmall PyChunk.none).device) := by
  have h : ∀ k : ℤ, PyChunk.int 16 = PyChunk.int k → ¬(1 ≤ k ∧ k ≤ 4) := by
    intro k hk
    injection hk with h16
    omega
  exact ⟨⟨by decide, h⟩, claim_C8_supported_nonsmall_chunk_behaves_like_none teM batf0 bptf0
    batch1 zSmall pmSmall 0 (PyChunk.int 16) true false (by decide) h⟩

/-- **C9.** For a single template and fixed weights and inputs, the in-place
(memory-reduced) pair-stack path stores into the accumulation buffer exactly
the same per-template result as the standard path, and the whole forward call
returns the same outputs. -/
theorem claim_C9_inplace_matches_standard {F : Type} {caIn caOut cpIn cpOut : ℕ}
    (m : TemplateEmbedderM caIn caOut cpIn cpOut) (batfCore : F → Tensor)
    (bptfCore : F → Bool → ℤ → ℤ → Tensor) (batch : TemplateBatch F)
    (z pair_mask : Tensor) (templ_dim : ℕ) (cs : Option ℤ) (mt : Bool)
    (h1 : batch.n_templ = 1) :
    (∀ i, TemplateEmbedder.storedTemplate m bptfCore batch z pair_mask cs mt true i
        = TemplateEmbedder.storedTemplate m bptfCore batch z pair_mask cs mt false i)
    ∧ TemplateEmbedder.forward m batfCore bptfCore batch z pair_mask templ_dim cs mt true
      = TemplateEmbedder.forward m batfCore bptfCore batch z pair_mask templ_dim cs mt false :=
  ⟨fun _ => rfl, rfl⟩

/-- Witness for C9 on a concrete single-template batch. -/
theorem claim_C9_witness :
    batch1.n_templ = 1
    ∧ TemplateEmbedder.storedTemplate teM bptf0 batch1 zSmall pmSmall none true true 0
      = TemplateEmbedder.storedTemplate teM bptf0 batch1 zSmall pmSmall none true false 0
    ∧ TemplateEmbedder.forward teM batf0 bptf0 batch1 zSmall pmSmall 0 none true true
      = TemplateEmbedder.forward teM batf0 bptf0 batch1 zSmall pmSmall 0 none true false := by
  have h := claim_C9_inplace_matches_standard teM batf0 bptf0 batch1 zSmall pmSmall 0 none
    true rfl
  exact ⟨rfl, h.1 0, h.2⟩

/-- **C6.** `TemplateAngleEmbedder.forward` equals `linear_2 ∘ relu ∘ linear_1`
exactly for the constructed weights, preserves all leading axes while mapping
the final axis from `c_in` to `c_out`, and on the concrete scenario
(`c_in=57, c_out=256`, input `[1,4,10,57]`) returns shape `[1,4,10,256]`. -/
theorem claim_C6_angle_embedder_composite :
    (∀ (cIn cOut : ℕ) (a : TemplateAngleEmbedderM cIn cOut) (x : Tensor),
      TemplateAngleEmbedder.forward a x
        = linearApply cOut cOut a.linear_2 (relu (linearApply cIn cOut a.linear_1 x))
      ∧ (TemplateAngleEmbedder.forward a x).shape = x.shape.dropLast ++ [cOut])
    ∧ (TemplateAngleEmbedder.forward aeScenario xAngle).shape = [1, 4, 10, 256] := by
  refine ⟨fun cIn cOut a x => ⟨rfl, ?_⟩, by decide⟩
  simp [TemplateAngleEmbedder.forward, linearApply, relu, Tensor.map]

/-- **C5.** The MSA embedding returned by `InputEmbedder.forward` equals the
projection of the raw MSA features plus the MSA-width projection of the target
features broadcast identically across the cluster axis, and on the spec's
concrete scenario (`tf_dim=22, msa_dim=49, c_z=128, c_m=256, relpos_k=32`,
batch 1, `N_res=10`, `N_clust=4`) the returned shapes are `[1,4,10,256]` and
`[1,10,10,128]`. -/
theorem claim_C5_msa_embedding_and_shapes :
    (∀ (tfd msad cz cm k B S N : ℕ) (m : InputEmbedderM tfd msad cz cm k)
      (tf ri msa : Tensor) (b s i c : ℕ),
      tf.shape = [B, N, tfd] → msa.shape = [B, S, N, msad] →
      b < B → s < S → i < N → c < cm →
      (InputEmbedder.forward m tf ri msa).1.val [b, s, i, c]
        = (linearApply msad cm m.linear_msa_m msa).val [b, s, i, c]
          + (linearApply tfd cm m.linear_tf_m tf).val [b, i, c])
    ∧ (InputEmbedder.forward ieScenario (T0 [1, 10, 22]) (T0 [1, 10])
        (T0 [1, 4, 10, 49])).1.shape = [1, 4, 10, 256]
    ∧ (InputEmbedder.forward ieScenario (T0 [1, 10, 22]) (T0 [1, 10])
        (T0 [1, 4, 10, 49])).2.shape = [1, 10, 10, 128] := by
  refine ⟨?_, by decide, by decide⟩
  intro tfd msad cz cm k B S N m tf ri msa b s i c htf hmsa hb hs hi hc
  have hnc : msa.shape.getD (msa.shape.length - 3) 0 = S := by rw [hmsa]; rfl
  have hLM : (linearApply msad cm m.linear_msa_m msa).shape = [B, S, N, cm] := by
    simp [linearApply, hmsa]
  have hLT : (linearApply tfd cm m.linear_tf_m tf).shape = [B, N, cm] := by
    simp [linearApply, htf]
  have hU : ((linearApply tfd cm m.linear_tf_m tf).unsqueezeFromEnd 2).shape
      = [B, 1, N, cm] := by
    simp [Tensor.unsqueezeFromEnd, hLT]
  have hE : (((linearApply tfd cm m.linear_tf_m tf).unsqueezeFromEnd 2).expandAxisFromEnd 2
        (msa.shape.getD (msa.shape.length - 3) 0)).shape = [B, S, N, cm] := by
    rw [hnc]
    simp [Tensor.expandAxisFromEnd, hU]
  have hbc : bcIdx [B, S, N, cm] [b, s, i, c] = [b, s, i, c] := by
    simp [bcIdx, Nat.mod_eq_of_lt hb, Nat.mod_eq_of_lt hs, Nat.mod_eq_of_lt hi,
      Nat.mod_eq_of_lt hc]
  simp only [InputEmbedder.forward, Tensor.binop, hLM, hE, hbc]
  simp [Tensor.expandAxisFromEnd, Tensor.unsqueezeFromEnd]

/-- Witness for C5 at a small concrete embedder and inputs. -/
theorem claim_C5_witness :
    ((T0 [1, 2, 2]).shape = [1, 2, 2] ∧ (T0 [1, 2, 2, 2]).shape = [1, 2, 2, 2]
      ∧ (0 : ℕ) < 1 ∧ (1 : ℕ) < 2)
    ∧ (InputEmbedder.forward ieSmall (T0 [1, 2, 2]) (T0 [1, 2])
        (T0 [1, 2, 2, 2])).1.val [0, 1, 1, 1]
      = (linearApply 2 2 ieSmall.linear_msa_m (T0 [1, 2, 2, 2])).val [0, 1, 1, 1]
        + (linearApply 2 2 ieSmall.linear_tf_m (T0 [1, 2, 2])).val [0, 1, 1] :=
  ⟨⟨rfl, rfl, by decide, by decide⟩,
   claim_C5_msa_embedding_and_shapes.1 2 2 2 2 1 1 2 2 ieSmall (T0 [1, 2, 2]) (T0 [1, 2])
     (T0 [1, 2, 2, 2]) 0 1 1 1 rfl rfl (by decide) (by decide) (by decide) (by decide)⟩

/-- **C4.** The pair embedding returned by `InputEmbedder.forward` equals, at
every position `(i, j)`, the relative-position encoding of the residue indices
plus the row-role projection of the target features at `i` plus the
column-role projection at `j`. -/
theorem claim_C4_pair_embedding_decomposition (tfd msad cz cm k B N : ℕ)
    (m : InputEmbedderM tfd msad cz cm k) (tf ri msa : Tensor) (b i j c : ℕ)
    (htf : tf.shape = [B, N, tfd]) (hri : ri.shape = [B, N])
    (hb : b < B) (hi : i < N) (hj : j < N) (hc : c < cz) :
    (InputEmbedder.forward m tf ri msa).2.val [b, i, j, c]
      = (InputEmbedder.relpos m ri).val [b, i, j, c]
        + (linearApply tfd cz m.linear_tf_z_i tf).val [b, i, c]
        + (linearApply tfd cz m.linear_tf_z_j tf).val [b, j, c] := by
  have hN1 : 1 ≤ N := by omega
  have hcz1 : 1 ≤ cz := by omega
  have hti : (linearApply tfd cz m.linear_tf_z_i tf).shape = [B, N, cz] := by
    simp [linearApply, htf]
  have htj : (linearApply tfd cz m.linear_tf_z_j tf).shape = [B, N, cz] := by
    simp [linearApply, htf]
  have hu1 : ((linearApply tfd cz m.linear_tf_z_i tf).unsqueezeFromEnd 1).shape
      = [B, N, 1, cz] := by
    simp [Tensor.unsqueezeFromEnd, hti]
  have hu2 : ((linearApply tfd cz m.linear_tf_z_j tf).unsqueezeFromEnd 2).shape
      = [B, 1, N, cz] := by
    simp [Tensor.unsqueezeFromEnd, htj]
  have hbin : broadcastShape [B, N, 1, cz] [B, 1, N, cz] = [B, N, N, cz] := by
    simp [broadcastShape]
    omega
  have hrel : (InputEmbedder.relpos m
      (ri.toDtype (linearApply tfd cz m.linear_tf_z_i tf).dtype)).shape = [B, N, N, cz] := by
    simp [InputEmbedder.relpos, linearApply, oneHotBoundaries, Tensor.binop,
      Tensor.unsqueezeFromEnd, Tensor.toDtype, broadcastShape, hri]
    omega
  have hpv : (InputEmbedder.relpos m
      (ri.toDtype (linearApply tfd cz m.linear_tf_z_i tf).dtype)).val
      = (InputEmbedder.relpos m ri).val := rfl
  have hbc : bcIdx [B, N, N, cz] [b, i, j, c] = [b, i, j, c] := by
    simp [bcIdx, Nat.mod_eq_of_lt hb, Nat.mod_eq_of_lt hi, Nat.mod_eq_of_lt hj,
      Nat.mod_eq_of_lt hc]
  have hbcu1 : bcIdx [B, N, 1, cz] [b, i, j, c] = [b, i, 0, c] := by
    simp [bcIdx, Nat.mod_eq_of_lt hb, Nat.mod_eq_of_lt hi, Nat.mod_eq_of_lt hc, Nat.mod_one]
  have hbcu2 : bcIdx [B, 1, N, cz] [b, i, j, c] = [b, 0, j, c] := by
    simp [bcIdx, Nat.mod_eq_of_lt hb, Nat.mod_eq_of_lt hj, Nat.mod_eq_of_lt hc, Nat.mod_one]
  simp only [InputEmbedder.forward, Tensor.binop, hu1, hu2, hbin, hrel, hpv, hbc,
    hbcu1, hbcu2]
  simp only [Tensor.unsqueezeFromEnd]
  ring_nf
  simp [List.take, List.drop]

/-- Witness for C4 at a small concrete embedder and inputs. -/
theorem claim_C4_witness :
    ((T0 [1, 2, 2]).shape = [1, 2, 2] ∧ (T0 [1, 2]).shape = [1, 2]
      ∧ (0 : ℕ) < 1 ∧ (1 : ℕ) < 2)
    ∧ (InputEmbedder.forward ieSmall (T0 [1, 2, 2]) (T0 [1, 2])
        (T0 [1, 2, 2, 2])).2.val [0, 1, 1, 1]
      = (InputEmbedder.relpos ieSmall (T0 [1, 2])).val [0, 1, 1, 1]
        + (linearApply 2 2 ieSmall.linear_tf_z_i (T0 [1, 2, 2])).val [0, 1, 1]
        + (linearApply 2 2 ieSmall.linear_tf_z_j (T0 [1, 2, 2])).val [0, 1, 1] :=
  ⟨⟨rfl, rfl, by decide, by decide⟩,
   claim_C4_pair_embedding_decomposition 2 2 2 2 1 1 2 ieSmall (T0 [1, 2, 2]) (T0 [1, 2])
     (T0 [1, 2, 2, 2]) 0 1 1 1 rfl rfl (by decide) (by decide) (by decide) (by decide)⟩
